import Mathlib

/-!
Shallow embedding of the result-aggregation, persistence, dataset-loading and
suite-loading core of `src/app/validator/run_checks.py`
(class `DataQualityValidator`), together with theorems settling the frozen
claims about that code.

Modelling conventions:
* Python strings are `List Char` (named `PyStr`), so that universal facts
  about string operations (suffix tests, `str.split`, `os.path` helpers)
  can be proved by list induction.
* Python dict `.get(key, default)` on optional keys is `Option.getD`.
* Numeric JSON payloads are `Int` (counts) and `ℚ` (percentages).
* The wall clock (`datetime.datetime.now().isoformat()`): the aggregator
  calls it repeatedly, so it is modelled as an explicit argument
  `clock : Nat → PyStr` giving the string returned by the n-th call made
  while processing (call 0 stamps the report, calls 1, 2, ... stamp the
  successive failure records).
* `json.dump`/`json.dumps` serialization is deterministic and injective;
  where only byte-identity of serialized output matters it is modelled by
  an arbitrary universally-quantified serializer, and the serialized
  check definition stored in a failure record is modelled by the
  configuration value itself.
-/

/-- Python strings, modelled as lists of characters. -/
abbrev PyStr := List Char

/-- A JSON-like value, for check parameters (`kwargs`), metadata and
sampled unexpected values. -/
inductive JsonValue where
  | str (s : PyStr)
  | num (q : ℚ)
  | boolean (b : Bool)
  | null
  | arr (elems : List JsonValue)
  | obj (fields : List (PyStr × JsonValue))

/-- `os.path.basename` for POSIX paths: everything after the last slash. -/
def pyBasename (p : PyStr) : PyStr :=
  ((p.reverse.takeWhile (fun c => !(c = '/'))).reverse)

/-- The root part of CPython `os.path.splitext` on a plain file name:
the extension starts at the last dot, except that a run of leading dots
never starts an extension (so `.bashrc` keeps its name and a name with
no other dot is returned whole). -/
def pySplitextRoot (s : PyStr) : PyStr :=
  let leading := s.takeWhile (fun c => c = '.')
  let rest := s.drop leading.length
  if rest.any (fun c => c = '.') then
    leading ++ ((rest.reverse.dropWhile (fun c => !(c = '.'))).drop 1).reverse
  else s

/-- Python `s.endswith(suffix)`. -/
def pyEndswith (suffix s : PyStr) : Bool :=
  List.isSuffixOf suffix s

/-- Split a string at the first occurrence of `sep`: returns the part
before and the part after that occurrence, or `none` when `sep` does not
occur.  (For empty `sep` the occurrence is at the front; our callers only
use a non-empty `sep`.) -/
def splitAtFirst (sep : PyStr) : PyStr → Option (PyStr × PyStr)
  | [] => if sep.isEmpty then some ([], []) else none
  | c :: cs =>
    if sep.isPrefixOf (c :: cs) then some ([], (c :: cs).drop sep.length)
    else
      match splitAtFirst sep cs with
      | some (pre, post) => some (c :: pre, post)
      | none => none

/-- Python `needle in haystack` (substring containment). -/
def pyContains (needle hay : PyStr) : Bool :=
  (splitAtFirst needle hay).isSome

theorem splitAtFirst_length_lt {sep : PyStr} (hsep : sep ≠ []) :
    ∀ {s pre post : PyStr}, splitAtFirst sep s = some (pre, post) →
      post.length < s.length := by
  intro s
  induction s with
  | nil =>
    intro pre post h
    simp [splitAtFirst, List.isEmpty_iff, hsep] at h
  | cons c cs ih =>
    intro pre post h
    by_cases hp : sep.isPrefixOf (c :: cs)
    · simp only [splitAtFirst, hp, if_pos] at h
      obtain ⟨-, rfl⟩ := Prod.mk.injEq .. ▸ (Option.some.injEq .. ▸ h)
      have hlen : 1 ≤ sep.length := by
        cases sep with
        | nil => exact absurd rfl hsep
        | cons a as => simp
      simp only [List.length_drop, List.length_cons]
      omega
    · simp only [splitAtFirst, hp, if_neg, if_false] at h
      cases hm : splitAtFirst sep cs with
      | none => rw [hm] at h; exact absurd h (by simp)
      | some pp =>
        rw [hm] at h
        obtain ⟨pre0, post0⟩ := pp
        simp only [Option.some.injEq, Prod.mk.injEq] at h
        obtain ⟨-, rfl⟩ := h
        exact Nat.lt_trans (ih hm) (by simp)

/-- Python `s.split(sep)` for the non-empty separators used by the source
(`str.split` raises on an empty separator; that unreachable case returns
the whole string). -/
def pySplit (sep : PyStr) (s : PyStr) : List PyStr :=
  if h : sep = [] then [s]
  else
    match hm : splitAtFirst sep s with
    | none => [s]
    | some (pre, post) => pre :: pySplit sep post
termination_by s.length
decreasing_by exact splitAtFirst_length_lt h hm

/-- Raw per-check evidence dictionary (`result['result']` in the Great
Expectations output), with the keys the aggregator reads.  The source key
of `sample_unexpected` is the bounded unexpected-values sample list. -/
structure RawCheckResult where
  unexpected_count : Option Int
  unexpected_percent : Option ℚ
  sample_unexpected : Option (List JsonValue)

/-- `result['expectation_config']`: the check definition attached to a raw
outcome. -/
structure ExpectationConfig where
  expectation_type : Option PyStr
  kwargs : Option JsonValue

/-- One raw per-check outcome (`validation_result['results'][i]`). -/
structure RawResult where
  success : Option Bool
  expectation_config : Option ExpectationConfig
  result : Option RawCheckResult

/-- `validation_result['statistics']` as produced by the checking library. -/
structure RawStatistics where
  evaluated_expectations : Option Int
  successful_expectations : Option Int
  unsuccessful_expectations : Option Int
  success_percent : Option ℚ

/-- The raw validation result handed to the aggregator. -/
structure ValidationResult where
  success : Option Bool
  statistics : Option RawStatistics
  results : Option (List RawResult)

/-- The empty dict `{}` default for `result.get('expectation_config', {})`. -/
def emptyExpectationConfig : ExpectationConfig := ⟨none, none⟩

/-- The empty dict `{}` default for `result.get('result', {})`. -/
def emptyRawCheckResult : RawCheckResult := ⟨none, none, none⟩

/-- The empty dict `{}` default for `validation_result.get('statistics', {})`. -/
def emptyRawStatistics : RawStatistics := ⟨none, none, none, none⟩

/-- The `statistics` block of the processed report (run_checks.py lines
159-164): every field is copied from the raw statistics with default 0. -/
structure Statistics where
  evaluated_expectations : Int
  successful_expectations : Int
  unsuccessful_expectations : Int
  success_percent : ℚ
deriving DecidableEq

/-- The `actual_value` sub-record of a normalized failure record. -/
structure ActualValue where
  unexpected_count : Int
  unexpected_percent : ℚ
  unexpected_values : List JsonValue

/-- A normalized failure record (run_checks.py lines 172-187).
`check_implementation` holds `json.dumps(expectation_config, indent=2)` in
the source; serialization being injective and deterministic, it is
modelled by the configuration value itself. -/
structure FailedCheck where
  check_name : PyStr
  check_type : PyStr
  dataset_name : PyStr
  failed_rows : Int
  failure_percentage : ℚ
  timestamp : PyStr
  expected_value : JsonValue
  actual_value : ActualValue
  check_implementation : ExpectationConfig
  dataset_path : PyStr

/-- The processed validation report (run_checks.py lines 153-166). -/
structure Report where
  dataset_path : PyStr
  dataset_name : PyStr
  suite_name : PyStr
  timestamp : PyStr
  success : Bool
  statistics : Statistics
  failed_checks : List FailedCheck

/-- The literal separator `'expect_'` of run_checks.py line 174. -/
def expectLit : PyStr := "expect_".data

/-- The category derivation of run_checks.py line 174, after the two
`.get` defaults have been taken: Python
`tSplit.split('expect_')[1] if 'expect_' in tTest else 'custom'`
(the containment test uses default `''`, the split uses default
`'unknown'`; at line 174 both are applied to the same
`expectation_type`). -/
def pyCheckCategory (tTest tSplit : PyStr) : PyStr :=
  if pyContains expectLit tTest then (pySplit expectLit tSplit).getD 1 []
  else "custom".data

/-- Build one normalized failure record (run_checks.py lines 172-187);
`ts` is the value of the `datetime.datetime.now().isoformat()` call made
for this record (line 178). -/
def mkFailedCheck (dataset_path : PyStr) (r : RawResult) (ts : PyStr) :
    FailedCheck :=
  let cfg := r.expectation_config.getD emptyExpectationConfig
  let res := r.result.getD emptyRawCheckResult
  { check_name := cfg.expectation_type.getD "unknown".data
    check_type := pyCheckCategory (cfg.expectation_type.getD "".data)
      (cfg.expectation_type.getD "unknown".data)
    dataset_name := pyBasename dataset_path
    failed_rows := res.unexpected_count.getD 0
    failure_percentage := res.unexpected_percent.getD 0
    timestamp := ts
    expected_value := cfg.kwargs.getD (JsonValue.obj [])
    actual_value :=
      { unexpected_count := res.unexpected_count.getD 0
        unexpected_percent := res.unexpected_percent.getD 0
        unexpected_values := res.sample_unexpected.getD [] }
    check_implementation := cfg
    dataset_path := dataset_path }

/-- The failed-check loop of run_checks.py lines 169-189: walk the raw
results in order, appending a normalized record for each raw outcome whose
`success` (default `False`) is not truthy.  `n` is the index of the next
wall-clock call. -/
def processFailures (clock : Nat → PyStr) (n : Nat) (dataset_path : PyStr) :
    List RawResult → List FailedCheck
  | [] => []
  | r :: rs =>
    if r.success.getD false then processFailures clock n dataset_path rs
    else mkFailedCheck dataset_path r (clock n) ::
      processFailures clock (n + 1) dataset_path rs

/-- `DataQualityValidator._process_validation_results`
(run_checks.py lines 137-191). -/
def processValidationResults (clock : Nat → PyStr)
    (validation_result : ValidationResult)
    (dataset_path suite_name : PyStr) : Report :=
  let st := validation_result.statistics.getD emptyRawStatistics
  { dataset_path := dataset_path
    dataset_name := pyBasename dataset_path
    suite_name := suite_name
    timestamp := clock 0
    success := validation_result.success.getD false
    statistics :=
      { evaluated_expectations := st.evaluated_expectations.getD 0
        successful_expectations := st.successful_expectations.getD 0
        unsuccessful_expectations := st.unsuccessful_expectations.getD 0
        success_percent := st.success_percent.getD 0 }
    failed_checks :=
      processFailures clock 1 dataset_path (validation_result.results.getD []) }

/-- Exceptions raised by the validator paths we model. -/
inductive PyErr where
  | fileNotFound (path : PyStr)
  | valueError (msg : PyStr)
  | ioError (msg : PyStr)
deriving DecidableEq

/-- A file system: a map from paths to file contents. -/
abbrev FileSystem := PyStr → Option PyStr

/-- Overwrite one file. -/
def writeFile (fs : FileSystem) (path content : PyStr) : FileSystem :=
  fun p => if p = path then some content else fs p

/-- Apply a sequence of writes in order. -/
def applyWrites (fs : FileSystem) (ws : List (PyStr × PyStr)) : FileSystem :=
  ws.foldl (fun f pc => writeFile f pc.1 pc.2) fs

/-- The output directory of `_save_results` (run_checks.py lines 204-206):
`os.path.join(results_dir, date_str, splitext(dataset_name)[0])`, for the
relative components the source produces. -/
def saveOutputDir (dateStr resultsDir : PyStr) (report : Report) : PyStr :=
  resultsDir ++ "/".data ++ dateStr ++ "/".data ++
    pySplitextRoot report.dataset_name

/-- The archival file path `results_<HHMMSS>.json` (line 211). -/
def saveArchivalPath (dateStr hhmmss resultsDir : PyStr) (report : Report) :
    PyStr :=
  saveOutputDir dateStr resultsDir report ++ "/results_".data ++ hhmmss ++
    ".json".data

/-- The fixed latest file path `results.json` (line 216). -/
def saveLatestPath (dateStr resultsDir : PyStr) (report : Report) : PyStr :=
  saveOutputDir dateStr resultsDir report ++ "/results.json".data

/-- The ordered write events of `_save_results` (run_checks.py lines
209-218): first the archival file, then the latest file, both holding the
same serialized report.  `dumps` is the (deterministic) JSON serializer,
`dateStr` and `hhmmss` the two wall-clock readings of lines 204 and 210. -/
def saveWrites (dumps : Report → PyStr) (dateStr hhmmss resultsDir : PyStr)
    (report : Report) : List (PyStr × PyStr) :=
  [(saveArchivalPath dateStr hhmmss resultsDir report, dumps report),
   (saveLatestPath dateStr resultsDir report, dumps report)]

/-- `DataQualityValidator._save_results` (run_checks.py lines 193-221):
performs the writes in order and returns the archival path. -/
def saveResults (dumps : Report → PyStr) (dateStr hhmmss resultsDir : PyStr)
    (report : Report) (fs : FileSystem) : FileSystem × PyStr :=
  (applyWrites fs (saveWrites dumps dateStr hhmmss resultsDir report),
   saveArchivalPath dateStr hhmmss resultsDir report)

/-- The three dataset formats `_load_dataset` can dispatch to. -/
inductive DatasetFormat where
  | csv
  | parquet
  | json
deriving DecidableEq

/-- The dispatch of `DataQualityValidator._load_dataset`
(run_checks.py lines 80-88): which loader runs for a path, or the
unsupported-format error raised before any load is attempted. -/
def loadDatasetFormat (path : PyStr) : Except PyErr DatasetFormat :=
  if pyEndswith ".csv".data path then .ok .csv
  else if pyEndswith ".parquet".data path then .ok .parquet
  else if pyEndswith ".json".data path then .ok .json
  else .error (.valueError ("Unsupported file format: ".data ++ path))

/-- The parsed suite definition mapping (`suite_config`), as returned by
the YAML or JSON parse of the definition file. -/
structure SuiteConfig where
  name : Option PyStr
  expectations : Option (List ExpectationConfig)
  meta : Option JsonValue

/-- The `ExpectationSuite` object built at run_checks.py lines 62-66. -/
structure ExpectationSuite where
  expectation_suite_name : PyStr
  expectations : List ExpectationConfig
  meta : JsonValue

/-- Suite construction from the parsed config (run_checks.py lines 62-66). -/
def mkExpectationSuite (suite_name : PyStr) (cfg : SuiteConfig) :
    ExpectationSuite :=
  { expectation_suite_name := cfg.name.getD suite_name
    expectations := cfg.expectations.getD []
    meta := cfg.meta.getD (JsonValue.obj []) }

/-- The resolved suite definition path (run_checks.py line 52):
always `<expectations_dir>/<suite_name>.yml`. -/
def suitePath (expectationsDir suite_name : PyStr) : PyStr :=
  expectationsDir ++ "/".data ++ suite_name ++ ".yml".data

/-- `DataQualityValidator._load_expectation_suite`
(run_checks.py lines 42-68).  `parseJson`/`parseYaml` stand for
`json.load`/`yaml.safe_load`; line 59 picks between them by the resolved
path's suffix. -/
def loadExpectationSuite (parseJson parseYaml : PyStr → SuiteConfig)
    (fs : FileSystem) (expectationsDir suite_name : PyStr) :
    Except PyErr ExpectationSuite :=
  let path := suitePath expectationsDir suite_name
  match fs path with
  | none => .error (.fileNotFound path)
  | some content =>
    .ok (mkExpectationSuite suite_name
      (if pyEndswith ".json".data path then parseJson content
       else parseYaml content))

/-- `DataQualityValidator.validate` (run_checks.py lines 95-135), with the
collaborators' observable behavior as parameters: dataset and suite
loading may raise; `runSuite` stands for the checking library's
`dataset.validate(expectation_suite=suite)`; `save` stands for
`_save_results` and may raise.  The `except` block (lines 133-135) logs
the exception and re-raises, so every error propagates. -/
def validateFlow {D S : Type} (loadDataset : Except PyErr D)
    (loadSuite : Except PyErr S) (runSuite : D → S → ValidationResult)
    (clock : Nat → PyStr) (dataset_path suite_name : PyStr)
    (save : Report → Except PyErr PyStr) (save_results : Bool) :
    Except PyErr Report :=
  match loadDataset with
  | .error e => .error e
  | .ok d =>
    match loadSuite with
    | .error e => .error e
    | .ok s =>
      let report :=
        processValidationResults clock (runSuite d s) dataset_path suite_name
      if save_results then
        match save report with
        | .error e => .error e
        | .ok _ => .ok report
      else .ok report

/-- Erase the wall-clock stamp of one failure record. -/
def FailedCheck.stripTs (fc : FailedCheck) : FailedCheck :=
  { fc with timestamp := [] }

/-- Erase every wall-clock stamp of a report (the report stamp and each
failure record's stamp). -/
def Report.stripTs (r : Report) : Report :=
  { r with timestamp := []
           failed_checks := r.failed_checks.map FailedCheck.stripTs }

/-- Modelled from the spec's words (claim C5), as the comparison point for
the refinement claim: derive the category by stripping the fixed literal
`expect_` from the FRONT of the type name when the name starts with it,
else fall back to `custom`. -/
def specCheckCategory (t : PyStr) : PyStr :=
  if expectLit.isPrefixOf t then t.drop expectLit.length else "custom".data

/-- Round to two decimal places (the `round(x, 2)` of the spec's
statistics invariant, modelled as exact decimal rounding on ℚ). -/
def round2 (q : ℚ) : ℚ := (round (100 * q) : ℚ) / 100

/-- The raw statistics block with the aggregator's `.get(_, 0)` defaults
applied. -/
def rawStatsWithDefaults (vr : ValidationResult) : Statistics :=
  let st := vr.statistics.getD emptyRawStatistics
  { evaluated_expectations := st.evaluated_expectations.getD 0
    successful_expectations := st.successful_expectations.getD 0
    unsuccessful_expectations := st.unsuccessful_expectations.getD 0
    success_percent := st.success_percent.getD 0 }

/-- The statistics invariants of spec §3 for a suite of `numChecks`
checks. -/
def statsInvariant (numChecks : Nat) (st : Statistics) : Prop :=
  st.evaluated_expectations = numChecks ∧
  st.successful_expectations + st.unsuccessful_expectations =
    st.evaluated_expectations ∧
  (st.evaluated_expectations = 0 → st.success_percent = 0) ∧
  (st.evaluated_expectations ≠ 0 → st.success_percent =
    round2 ((100 * st.successful_expectations : ℚ) /
      (st.evaluated_expectations : ℚ)))

theorem stripTs_mkFailedCheck (p : PyStr) (r : RawResult) (ts : PyStr) :
    (mkFailedCheck p r ts).stripTs = mkFailedCheck p r [] := rfl

theorem processFailures_map_stripTs (clock : Nat → PyStr) (p : PyStr) :
    ∀ (rs : List RawResult) (n : Nat),
      (processFailures clock n p rs).map FailedCheck.stripTs =
        (rs.filter (fun r => !(r.success.getD false))).map
          (fun r => mkFailedCheck p r []) := by
  intro rs
  induction rs with
  | nil => intro n; rfl
  | cons r rs ih =>
    intro n
    by_cases hs : r.success.getD false
    · simp [processFailures, hs, List.filter_cons, ih]
    · simp [processFailures, hs, List.filter_cons, ih, stripTs_mkFailedCheck]

theorem processFailures_eq_nil_iff (clock : Nat → PyStr) (p : PyStr) :
    ∀ (rs : List RawResult) (n : Nat),
      processFailures clock n p rs = [] ↔
        ∀ r ∈ rs, r.success.getD false = true := by
  intro rs
  induction rs with
  | nil => intro n; simp [processFailures]
  | cons r rs ih =>
    intro n
    by_cases hs : r.success.getD false
    · simp [processFailures, hs, ih]
    · simp [processFailures, hs]

theorem mem_processFailures (clock : Nat → PyStr) (p : PyStr)
    {fc : FailedCheck} :
    ∀ {rs : List RawResult} {n : Nat}, fc ∈ processFailures clock n p rs →
      ∃ r m, r ∈ rs ∧ fc = mkFailedCheck p r (clock m) := by
  intro rs
  induction rs with
  | nil => intro n h; simp [processFailures] at h
  | cons r rs ih =>
    intro n h
    by_cases hs : r.success.getD false
    · simp only [processFailures, hs, if_pos] at h
      obtain ⟨r0, m, hm, he⟩ := ih h
      exact ⟨r0, m, List.mem_cons_of_mem _ hm, he⟩
    · simp [processFailures, hs, List.mem_cons] at h
      rcases h with h | h
      · exact ⟨r, n, List.mem_cons_self _ _, h⟩
      · obtain ⟨r0, m, hm, he⟩ := ih h
        exact ⟨r0, m, List.mem_cons_of_mem _ hm, he⟩

theorem isPrefixOf_append_self :
    ∀ (s t : PyStr), s.isPrefixOf (s ++ t) = true := by
  intro s t
  induction s with
  | nil => simp [List.isPrefixOf]
  | cons a s ih => simpa [List.isPrefixOf] using ih

theorem splitAtFirst_append_self {sep : PyStr} (hsep : sep ≠ [])
    (rest : PyStr) : splitAtFirst sep (sep ++ rest) = some ([], rest) := by
  cases sep with
  | nil => exact absurd rfl hsep
  | cons c cs =>
    show splitAtFirst (c :: cs) (c :: (cs ++ rest)) = some ([], rest)
    rw [splitAtFirst]
    rw [if_pos (by simpa using isPrefixOf_append_self (c :: cs) rest)]
    simp [List.drop_left]

theorem pySplit_of_none {sep s : PyStr} (hsep : sep ≠ [])
    (h : splitAtFirst sep s = none) : pySplit sep s = [s] := by
  rw [pySplit]
  split
  · rfl
  · split
    · rfl
    · rename_i pre post heq
      rw [h] at heq
      exact absurd heq (by simp)

theorem pySplit_of_some {sep s pre post : PyStr} (hsep : sep ≠ [])
    (h : splitAtFirst sep s = some (pre, post)) :
    pySplit sep s = pre :: pySplit sep post := by
  rw [pySplit]
  split
  · exact absurd (by assumption) hsep
  · split
    · rename_i heq
      rw [h] at heq
      exact absurd heq (by simp)
    · rename_i pre0 post0 heq
      rw [h] at heq
      obtain ⟨rfl, rfl⟩ := Prod.mk.injEq .. ▸ (Option.some.injEq .. ▸ heq)
      rfl

theorem not_json_suffix_of_yml (x : PyStr) :
    pyEndswith ".json".data (x ++ ".yml".data) = false := by
  rw [pyEndswith, Bool.eq_false_iff]
  intro hsuf
  rw [List.isSuffixOf_iff_suffix] at hsuf
  obtain ⟨t, ht⟩ := hsuf
  have hrev := congrArg List.reverse ht
  simp only [List.reverse_append] at hrev
  rw [show (".json".data).reverse = 'n' :: "osj.".data from rfl,
      show (".yml".data).reverse = 'l' :: "my.".data from rfl] at hrev
  simp only [List.cons_append] at hrev
  have : 'n' = 'l' := (List.cons.injEq .. ▸ hrev).1
  exact absurd this (by decide)

/-- C1 (counterexample): the aggregator is NOT a pure function of the
caller-visible inputs.  Two runs of `_process_validation_results` on the
very same raw validation outcome, dataset path and suite name give
different reports when the internal wall clock reads differently, because
the report's timestamp is `datetime.datetime.now()` taken inside the
aggregator (run_checks.py line 157), not a caller-supplied timestamp. -/
theorem claim1_counterexample :
    processValidationResults (fun _ => "T1".data) ⟨none, none, none⟩
        "d.csv".data "s".data ≠
      processValidationResults (fun _ => "T2".data) ⟨none, none, none⟩
        "d.csv".data "s".data := by
  intro h
  exact absurd (congrArg Report.timestamp h) (by decide)

/-- C1 (amended): aggregation is deterministic in the raw outcomes, the
dataset path, the suite name AND the wall-clock readings taken during the
run: with the clock readings fixed, reports agree; apart from the clock,
nothing else varies (the two reports agree everywhere outside the
timestamp fields), and the report's timestamp is exactly the first
wall-clock reading made inside the aggregator. -/
theorem claim1_amended_determinism (vr : ValidationResult) (p s : PyStr)
    (c1 c2 : Nat → PyStr) :
    (processValidationResults c1 vr p s).stripTs =
      (processValidationResults c2 vr p s).stripTs ∧
    (processValidationResults c1 vr p s).timestamp = c1 0 := by
  refine ⟨?_, rfl⟩
  show Report.mk _ _ _ _ _ _
      ((processFailures c1 1 p (vr.results.getD [])).map FailedCheck.stripTs) =
    Report.mk _ _ _ _ _ _
      ((processFailures c2 1 p (vr.results.getD [])).map FailedCheck.stripTs)
  rw [processFailures_map_stripTs, processFailures_map_stripTs]
  rfl

/-- C2 (counterexample): the three-way equivalence does not hold for every
raw validation result, because the aggregator copies `success` and
`unsuccessful_expectations` from the raw result instead of computing
them: a raw result claiming `success: True` with
`unsuccessful_expectations: 1` and no per-check results yields a report
with `success = true`, `unsuccessful_expectations = 1` and empty
`failed_checks`, violating `success ⇔ unsuccessful == 0`. -/
theorem claim2_counterexample :
    (processValidationResults (fun _ => [])
        ⟨some true, some ⟨some 1, some 0, some 1, some 0⟩, some []⟩
        "d.csv".data "s".data).success = true ∧
    (processValidationResults (fun _ => [])
        ⟨some true, some ⟨some 1, some 0, some 1, some 0⟩, some []⟩
        "d.csv".data "s".data).statistics.unsuccessful_expectations = 1 ∧
    (processValidationResults (fun _ => [])
        ⟨some true, some ⟨some 1, some 0, some 1, some 0⟩, some []⟩
        "d.csv".data "s".data).failed_checks = [] ∧
    ¬((processValidationResults (fun _ => [])
        ⟨some true, some ⟨some 1, some 0, some 1, some 0⟩, some []⟩
        "d.csv".data "s".data).success = true ↔
      (processValidationResults (fun _ => [])
        ⟨some true, some ⟨some 1, some 0, some 1, some 0⟩, some []⟩
        "d.csv".data "s".data).statistics.unsuccessful_expectations = 0) := by
  refine ⟨rfl, rfl, rfl, fun h => ?_⟩
  have h1 : (1 : Int) = 0 := h.mp rfl
  exact absurd h1 (by decide)

/-- C2 (amended): the aggregator derives only `failed_checks` itself
(`failed_checks` is empty exactly when every raw per-check outcome has a
truthy `success`); `report.success` and
`statistics.unsuccessful_expectations` are copied verbatim from the raw
result, so the three-way equivalence
`success ⇔ unsuccessful == 0 ⇔ failed_checks = []` holds precisely when
the raw validation result is internally consistent in those two
respects. -/
theorem claim2_amended_consistency (clock : Nat → PyStr)
    (vr : ValidationResult) (p s : PyStr)
    (hc : vr.success.getD false = true ↔
      (vr.statistics.getD emptyRawStatistics).unsuccessful_expectations.getD
        0 = 0)
    (hr : (vr.statistics.getD
        emptyRawStatistics).unsuccessful_expectations.getD 0 = 0 ↔
      ∀ r ∈ vr.results.getD [], r.success.getD false = true) :
    ((processValidationResults clock vr p s).success = true ↔
      (processValidationResults clock vr p
        s).statistics.unsuccessful_expectations = 0) ∧
    ((processValidationResults clock vr p
        s).statistics.unsuccessful_expectations = 0 ↔
      (processValidationResults clock vr p s).failed_checks = []) := by
  refine ⟨hc, ?_⟩
  show (vr.statistics.getD
      emptyRawStatistics).unsuccessful_expectations.getD 0 = 0 ↔
    processFailures clock 1 p (vr.results.getD []) = []
  rw [processFailures_eq_nil_iff clock p (vr.results.getD []) 1]
  exact hr

/-- C2 (witness): the amended equivalence at a concrete, internally
consistent raw result with one passing check. -/
theorem claim2_amended_witness :
    ((processValidationResults (fun _ => [])
        ⟨some true, some ⟨some 1, some 1, some 0, some 100⟩,
          some [⟨some true, none, none⟩]⟩ "d.csv".data "s".data).success =
          true ↔
      (processValidationResults (fun _ => [])
        ⟨some true, some ⟨some 1, some 1, some 0, some 100⟩,
          some [⟨some true, none, none⟩]⟩ "d.csv".data
          "s".data).statistics.unsuccessful_expectations = 0) ∧
    ((processValidationResults (fun _ => [])
        ⟨some true, some ⟨some 1, some 1, some 0, some 100⟩,
          some [⟨some true, none, none⟩]⟩ "d.csv".data
          "s".data).statistics.unsuccessful_expectations = 0 ↔
      (processValidationResults (fun _ => [])
        ⟨some true, some ⟨some 1, some 1, some 0, some 100⟩,
          some [⟨some true, none, none⟩]⟩ "d.csv".data
          "s".data).failed_checks = []) :=
  claim2_amended_consistency (fun _ => [])
    ⟨some true, some ⟨some 1, some 1, some 0, some 100⟩,
      some [⟨some true, none, none⟩]⟩ "d.csv".data "s".data
    (by decide) (by decide)

/-- C4: the report's `failed_checks` are exactly the normalizations of
the raw outcomes whose `success` is not truthy, in the raw results'
original order (which follows suite order); passing outcomes never
appear.  The records are compared with their per-record wall-clock stamp
erased, since that stamp is the only clock-dependent field. -/
theorem claim4_failed_checks_filter_order (clock : Nat → PyStr)
    (vr : ValidationResult) (p s : PyStr) :
    ((processValidationResults clock vr p s).failed_checks).map
        FailedCheck.stripTs =
      ((vr.results.getD []).filter (fun r => !(r.success.getD false))).map
        (fun r => mkFailedCheck p r []) :=
  processFailures_map_stripTs clock p (vr.results.getD []) 1

/-- C10: in every normalized failure record the top-level `failed_rows`
equals `actual_value.unexpected_count` and the top-level
`failure_percentage` equals `actual_value.unexpected_percent`: both pairs
are read from the same raw keys (run_checks.py lines 176-177 and
181-182). -/
theorem claim10_failed_rows_consistent (clock : Nat → PyStr)
    (vr : ValidationResult) (p s : PyStr) (fc : FailedCheck)
    (hmem : fc ∈ (processValidationResults clock vr p s).failed_checks) :
    fc.failed_rows = fc.actual_value.unexpected_count ∧
    fc.failure_percentage = fc.actual_value.unexpected_percent := by
  obtain ⟨r, m, -, rfl⟩ := mem_processFailures clock p hmem
  exact ⟨rfl, rfl⟩

/-- C10 (witness): the two-view agreement on a concrete failing record. -/
theorem claim10_witness :
    (mkFailedCheck "d.csv".data
        ⟨some false, none, some ⟨some 2, some 40, none⟩⟩ []).failed_rows =
      (mkFailedCheck "d.csv".data
        ⟨some false, none, some ⟨some 2, some 40, none⟩⟩
        []).actual_value.unexpected_count ∧
    (mkFailedCheck "d.csv".data
        ⟨some false, none, some ⟨some 2, some 40, none⟩⟩
        []).failure_percentage =
      (mkFailedCheck "d.csv".data
        ⟨some false, none, some ⟨some 2, some 40, none⟩⟩
        []).actual_value.unexpected_percent :=
  claim10_failed_rows_consistent (fun _ => [])
    ⟨some false, none, some [⟨some false, none, some ⟨some 2, some 40, none⟩⟩]⟩
    "d.csv".data "s".data
    (mkFailedCheck "d.csv".data
      ⟨some false, none, some ⟨some 2, some 40, none⟩⟩ [])
    (List.Mem.head _)

/-- C3 (counterexample): the aggregator copies the statistics verbatim
from the raw result (run_checks.py lines 159-164) and never consults the
suite, so the claimed invariants fail for raw statistics that do not
already satisfy them: with a one-check suite and a raw result reporting
`evaluated_expectations = 5`, the report has `evaluated = 5 ≠ 1 =
len(checks)` (and `successful + unsuccessful = 2 ≠ 5`). -/
theorem claim3_counterexample :
    (processValidationResults (fun _ => [])
        ⟨some false, some ⟨some 5, some 1, some 1, some 20⟩, some []⟩
        "d.csv".data "s".data).statistics.evaluated_expectations = 5 ∧
    ((mkExpectationSuite "s".data
        ⟨none, some [⟨some "expect_x".data, none⟩],
          none⟩).expectations.length : Int) = 1 ∧
    ¬((processValidationResults (fun _ => [])
        ⟨some false, some ⟨some 5, some 1, some 1, some 20⟩, some []⟩
        "d.csv".data "s".data).statistics.evaluated_expectations =
          ((mkExpectationSuite "s".data
            ⟨none, some [⟨some "expect_x".data, none⟩],
              none⟩).expectations.length : Int) ∧
      (processValidationResults (fun _ => [])
        ⟨some false, some ⟨some 5, some 1, some 1, some 20⟩, some []⟩
        "d.csv".data "s".data).statistics.successful_expectations +
        (processValidationResults (fun _ => [])
          ⟨some false, some ⟨some 5, some 1, some 1, some 20⟩, some []⟩
          "d.csv".data "s".data).statistics.unsuccessful_expectations =
        (processValidationResults (fun _ => [])
          ⟨some false, some ⟨some 5, some 1, some 1, some 20⟩, some []⟩
          "d.csv".data "s".data).statistics.evaluated_expectations) := by
  refine ⟨rfl, rfl, fun hcl => ?_⟩
  have h5 : (5 : Int) = ((1 : Nat) : Int) := hcl.1
  exact absurd h5 (by decide)

/-- C3 (amended): the report's statistics block is copied verbatim from
the raw result's statistics (absent keys defaulting to 0); consequently
the spec's statistics invariants hold of the report exactly when the raw
statistics already satisfy them (as the checking library's output does) —
the aggregator preserves but does not establish them. -/
theorem claim3_amended_stats_copied (clock : Nat → PyStr)
    (vr : ValidationResult) (p s : PyStr) (n : Nat)
    (h : statsInvariant n (rawStatsWithDefaults vr)) :
    (processValidationResults clock vr p s).statistics =
      rawStatsWithDefaults vr ∧
    statsInvariant n ((processValidationResults clock vr p s).statistics) :=
  ⟨rfl, h⟩

/-- C3 (witness): the amended statement at a concrete raw result whose
statistics are consistent for a two-check suite. -/
theorem claim3_amended_witness :
    (processValidationResults (fun _ => [])
        ⟨some true, some ⟨some 2, some 1, some 1, some 50⟩, none⟩
        "d.csv".data "s".data).statistics =
      rawStatsWithDefaults
        ⟨some true, some ⟨some 2, some 1, some 1, some 50⟩, none⟩ ∧
    statsInvariant 2 ((processValidationResults (fun _ => [])
        ⟨some true, some ⟨some 2, some 1, some 1, some 50⟩, none⟩
        "d.csv".data "s".data).statistics) :=
  claim3_amended_stats_copied (fun _ => [])
    ⟨some true, some ⟨some 2, some 1, some 1, some 50⟩, none⟩
    "d.csv".data "s".data 2
    (by
      refine ⟨rfl, rfl, fun h0 => absurd h0 (by decide), fun _ => ?_⟩
      show (50 : ℚ) = round2 ((100 * (1 : Int) : ℚ) / ((2 : Int) : ℚ))
      rw [round2]
      norm_num)

theorem expectLit_ne_nil : expectLit ≠ [] := by decide

theorem pyCheckCategory_of_none {t : PyStr}
    (h : splitAtFirst expectLit t = none) :
    pyCheckCategory t t = "custom".data := by
  have hc : pyContains expectLit t = false := by
    rw [pyContains, h]
    rfl
  simp [pyCheckCategory, hc]

theorem pyCheckCategory_of_some {t pre post : PyStr}
    (h : splitAtFirst expectLit t = some (pre, post)) :
    pyCheckCategory t t =
      (match splitAtFirst expectLit post with
       | none => post
       | some (mid, _) => mid) := by
  have hc : pyContains expectLit t = true := by
    rw [pyContains, h]
    rfl
  rw [pyCheckCategory, if_pos (by rw [hc])]
  rw [pySplit_of_some expectLit_ne_nil h]
  cases hm : splitAtFirst expectLit post with
  | none => rw [pySplit_of_none expectLit_ne_nil hm]; rfl
  | some v =>
    obtain ⟨mid, post2⟩ := v
    rw [pySplit_of_some expectLit_ne_nil hm]
    rfl

/-- C5 (counterexample): the category is NOT obtained by stripping a
leading `expect_` prefix with fallback `custom`: line 174 tests substring
containment (`'expect_' in ...`) and takes `split('expect_')[1]`.  For
the type name `my_expect_foo`, which does not carry the prefix, the code
produces `foo` where the claim requires the fallback `custom`. -/
theorem claim5_counterexample :
    (mkFailedCheck "d.csv".data
        ⟨some false, some ⟨some "my_expect_foo".data, none⟩, none⟩
        []).check_type = "foo".data ∧
    specCheckCategory "my_expect_foo".data = "custom".data ∧
    (mkFailedCheck "d.csv".data
        ⟨some false, some ⟨some "my_expect_foo".data, none⟩, none⟩
        []).check_type ≠ specCheckCategory "my_expect_foo".data := by
  have hsf : splitAtFirst expectLit "my_expect_foo".data =
      some ("my_".data, "foo".data) := by decide
  have hct : (mkFailedCheck "d.csv".data
      ⟨some false, some ⟨some "my_expect_foo".data, none⟩, none⟩
      []).check_type = "foo".data := by
    show pyCheckCategory "my_expect_foo".data "my_expect_foo".data =
      "foo".data
    rw [pyCheckCategory_of_some hsf]
    decide
  have hspec : specCheckCategory "my_expect_foo".data = "custom".data := by
    decide
  refine ⟨hct, hspec, ?_⟩
  rw [hct, hspec]
  decide

/-- C5 (amended): the normalized record's category is `custom` whenever
the literal `expect_` occurs nowhere in the type name (a substring test,
not a prefix test); when `expect_` does occur, the category is the
segment of the name strictly between the first occurrence and the next
one (the rest of the name when there is no second occurrence).  In
particular, for a name that starts with `expect_` and contains it only
there — every standard name — this coincides with stripping the
prefix. -/
theorem claim5_amended_category (p : PyStr) (su : Option Bool)
    (kw : Option JsonValue) (res : Option RawCheckResult) (ts t : PyStr) :
    (pyContains expectLit t = false →
      (mkFailedCheck p ⟨su, some ⟨some t, kw⟩, res⟩ ts).check_type =
        "custom".data) ∧
    (∀ pre post, splitAtFirst expectLit t = some (pre, post) →
      (mkFailedCheck p ⟨su, some ⟨some t, kw⟩, res⟩ ts).check_type =
        (match splitAtFirst expectLit post with
         | none => post
         | some (mid, _) => mid)) ∧
    (∀ rest, t = expectLit ++ rest → pyContains expectLit rest = false →
      (mkFailedCheck p ⟨su, some ⟨some t, kw⟩, res⟩ ts).check_type =
        rest) := by
  refine ⟨fun hc => ?_, fun pre post h => ?_, fun rest hre hnc => ?_⟩
  · show pyCheckCategory t t = "custom".data
    have hn : splitAtFirst expectLit t = none := by
      cases hm : splitAtFirst expectLit t with
      | none => rfl
      | some v => rw [pyContains, hm] at hc; exact absurd hc (by simp)
    exact pyCheckCategory_of_none hn
  · show pyCheckCategory t t =
      (match splitAtFirst expectLit post with
       | none => post
       | some (mid, _) => mid)
    exact pyCheckCategory_of_some h
  · subst hre
    have hn : splitAtFirst expectLit rest = none := by
      cases hm : splitAtFirst expectLit rest with
      | none => rfl
      | some v => rw [pyContains, hm] at hnc; exact absurd hnc (by simp)
    show pyCheckCategory (expectLit ++ rest) (expectLit ++ rest) = rest
    rw [pyCheckCategory_of_some (splitAtFirst_append_self expectLit_ne_nil
      rest), hn]

/-- C6: after `_save_results`, the timestamped archival file and the
fixed latest file both exist and hold the same serialized report, and
the write sequence performs the archival write strictly before the
latest-file overwrite (the write-event list is archival first, latest
second).  The two paths are distinct, for every serializer, clock
reading and prior file-system state. -/
theorem claim6_save_layout (dumps : Report → PyStr)
    (dateStr hhmmss resultsDir : PyStr) (report : Report)
    (fs : FileSystem) :
    ((saveResults dumps dateStr hhmmss resultsDir report fs).1
        (saveArchivalPath dateStr hhmmss resultsDir report) =
      some (dumps report)) ∧
    ((saveResults dumps dateStr hhmmss resultsDir report fs).1
        (saveLatestPath dateStr resultsDir report) =
      some (dumps report)) ∧
    saveArchivalPath dateStr hhmmss resultsDir report ≠
      saveLatestPath dateStr resultsDir report ∧
    saveWrites dumps dateStr hhmmss resultsDir report =
      [(saveArchivalPath dateStr hhmmss resultsDir report, dumps report)] ++
        [(saveLatestPath dateStr resultsDir report, dumps report)] := by
  have hne : saveArchivalPath dateStr hhmmss resultsDir report ≠
      saveLatestPath dateStr resultsDir report := by
    intro h
    have hl := congrArg List.length h
    rw [saveArchivalPath, saveLatestPath] at hl
    simp only [List.length_append] at hl
    rw [show ("/results_".data).length = 9 from rfl,
        show (".json".data).length = 5 from rfl,
        show ("/results.json".data).length = 13 from rfl] at hl
    omega
  refine ⟨?_, ?_, hne, rfl⟩
  · show writeFile
        (writeFile fs (saveArchivalPath dateStr hhmmss resultsDir report)
          (dumps report))
        (saveLatestPath dateStr resultsDir report) (dumps report)
        (saveArchivalPath dateStr hhmmss resultsDir report) =
      some (dumps report)
    simp [writeFile, hne]
  · show writeFile
        (writeFile fs (saveArchivalPath dateStr hhmmss resultsDir report)
          (dumps report))
        (saveLatestPath dateStr resultsDir report) (dumps report)
        (saveLatestPath dateStr resultsDir report) =
      some (dumps report)
    simp [writeFile]

/-- C7 (counterexample): when persistence fails, `validate` does NOT
return the computed report: the `except` block re-raises, so the caller
sees the storage error and the report is discarded.  Concretely, with
loading and checking succeeding and `_save_results` raising an IOError,
`validate` yields that error and not the report. -/
theorem claim7_counterexample :
    validateFlow (D := Unit) (S := Unit) (Except.ok ()) (Except.ok ())
        (fun _ _ => ⟨some true, none, some []⟩) (fun _ => [])
        "d.csv".data "s".data
        (fun _ => Except.error (PyErr.ioError "disk full".data)) true =
      Except.error (PyErr.ioError "disk full".data) ∧
    validateFlow (D := Unit) (S := Unit) (Except.ok ()) (Except.ok ())
        (fun _ _ => ⟨some true, none, some []⟩) (fun _ => [])
        "d.csv".data "s".data
        (fun _ => Except.error (PyErr.ioError "disk full".data)) true ≠
      Except.ok (processValidationResults (fun _ => [])
        ⟨some true, none, some []⟩ "d.csv".data "s".data) := by
  refine ⟨rfl, fun h => ?_⟩
  rw [show validateFlow (D := Unit) (S := Unit) (Except.ok ())
      (Except.ok ()) (fun _ _ => ⟨some true, none, some []⟩) (fun _ => [])
      "d.csv".data "s".data
      (fun _ => Except.error (PyErr.ioError "disk full".data)) true =
    Except.error (PyErr.ioError "disk full".data) from rfl] at h
  exact Except.noConfusion h

/-- C7 (amended): when loading and checking succeed but persistence
fails, `validate` propagates the storage error (after logging) instead of
returning the computed report; the report reaches the caller only when
saving succeeds or when saving is disabled (`save_results=False`). -/
theorem claim7_amended_save_error_propagates {D S : Type} (d : D) (s : S)
    (runSuite : D → S → ValidationResult) (clock : Nat → PyStr)
    (p sn : PyStr) (save : Report → Except PyErr PyStr) (e : PyErr)
    (hsave : save (processValidationResults clock (runSuite d s) p sn) =
      Except.error e) :
    validateFlow (Except.ok d) (Except.ok s) runSuite clock p sn save
        true = Except.error e ∧
    validateFlow (Except.ok d) (Except.ok s) runSuite clock p sn save
        false =
      Except.ok (processValidationResults clock (runSuite d s) p sn) := by
  constructor
  · show (match save (processValidationResults clock (runSuite d s) p sn)
        with
      | .error e0 => Except.error e0
      | .ok _ => Except.ok
          (processValidationResults clock (runSuite d s) p sn)) =
      Except.error e
    rw [hsave]
  · rfl

/-- C7 (witness): the amended behavior at a concrete failing save. -/
theorem claim7_amended_witness :
    validateFlow (D := Unit) (S := Unit) (Except.ok ()) (Except.ok ())
        (fun _ _ => ⟨some false, none, none⟩) (fun _ => []) "d.csv".data
        "s".data (fun _ => Except.error (PyErr.ioError "denied".data))
        true =
      Except.error (PyErr.ioError "denied".data) ∧
    validateFlow (D := Unit) (S := Unit) (Except.ok ()) (Except.ok ())
        (fun _ _ => ⟨some false, none, none⟩) (fun _ => []) "d.csv".data
        "s".data (fun _ => Except.error (PyErr.ioError "denied".data))
        false =
      Except.ok (processValidationResults (fun _ => [])
        ⟨some false, none, none⟩ "d.csv".data "s".data) :=
  claim7_amended_save_error_propagates () ()
    (fun _ _ => ⟨some false, none, none⟩) (fun _ => []) "d.csv".data
    "s".data (fun _ => Except.error (PyErr.ioError "denied".data))
    (PyErr.ioError "denied".data) rfl

/-- C8: `_load_dataset` dispatches on the path's trailing extension among
exactly `.csv`, `.parquet` and `.json`; every path matching none of the
three suffixes yields the unsupported-format error without any loader
being chosen, and every successful dispatch is witnessed by the matching
suffix. -/
theorem claim8_format_dispatch :
    (∀ p : PyStr, pyEndswith ".csv".data p = false →
      pyEndswith ".parquet".data p = false →
      pyEndswith ".json".data p = false →
      loadDatasetFormat p = Except.error
        (PyErr.valueError ("Unsupported file format: ".data ++ p))) ∧
    (∀ (p : PyStr) (f : DatasetFormat), loadDatasetFormat p = Except.ok f →
      (f = DatasetFormat.csv ∧ pyEndswith ".csv".data p = true) ∨
      (f = DatasetFormat.parquet ∧ pyEndswith ".parquet".data p = true) ∨
      (f = DatasetFormat.json ∧ pyEndswith ".json".data p = true)) := by
  constructor
  · intro p h1 h2 h3
    simp [loadDatasetFormat, h1, h2, h3]
  · intro p f h
    rw [loadDatasetFormat] at h
    by_cases h1 : pyEndswith ".csv".data p = true
    · rw [if_pos (by rw [h1])] at h
      exact Or.inl ⟨(Except.ok.injEq .. ▸ h).symm, h1⟩
    · rw [if_neg (by simpa using h1)] at h
      by_cases h2 : pyEndswith ".parquet".data p = true
      · rw [if_pos (by rw [h2])] at h
        exact Or.inr (Or.inl ⟨(Except.ok.injEq .. ▸ h).symm, h2⟩)
      · rw [if_neg (by simpa using h2)] at h
        by_cases h3 : pyEndswith ".json".data p = true
        · rw [if_pos (by rw [h3])] at h
          exact Or.inr (Or.inr ⟨(Except.ok.injEq .. ▸ h).symm, h3⟩)
        · rw [if_neg (by simpa using h3)] at h
          exact absurd h (by simp)

/-- C9 (counterexample): suite resolution never considers a JSON
definition file: `_load_expectation_suite` always resolves
`<dir>/<name>.yml` (run_checks.py line 52).  With a JSON suite
definition present at `exp/s.json` and nothing else, loading suite `s`
raises file-not-found for `exp/s.yml` instead of using the JSON file. -/
theorem claim9_counterexample :
    loadExpectationSuite (fun _ => ⟨none, none, none⟩)
        (fun _ => ⟨none, none, none⟩)
        (fun p => if p = "exp/s.json".data then some "x".data else none)
        "exp".data "s".data =
      Except.error (PyErr.fileNotFound "exp/s.yml".data) ∧
    (fun p : PyStr =>
        if p = "exp/s.json".data then some "x".data else none)
      "exp/s.json".data = some "x".data := by
  constructor
  · have hne : suitePath "exp".data "s".data ≠ "exp/s.json".data := by
      decide
    simp [loadExpectationSuite, hne]
    decide
  · simp

/-- C9 (amended): suite loading always resolves the name to
`<dir>/<name>.yml` and always parses the file with the YAML parser — the
JSON branch of line 59 tests the resolved path for a `.json` suffix,
which a path ending in `.yml` can never have — and it raises
file-not-found exactly when nothing exists at that `.yml` path. -/
theorem claim9_amended_yaml_only (parseJson parseYaml : PyStr → SuiteConfig)
    (fs : FileSystem) (dir name : PyStr) :
    (fs (suitePath dir name) = none →
      loadExpectationSuite parseJson parseYaml fs dir name =
        Except.error (PyErr.fileNotFound (suitePath dir name))) ∧
    (∀ c, fs (suitePath dir name) = some c →
      loadExpectationSuite parseJson parseYaml fs dir name =
        Except.ok (mkExpectationSuite name (parseYaml c))) ∧
    pyEndswith ".json".data (suitePath dir name) = false := by
  have hyml : pyEndswith ".json".data (suitePath dir name) = false :=
    not_json_suffix_of_yml (dir ++ "/".data ++ name)
  refine ⟨fun h0 => ?_, fun c hc => ?_, hyml⟩
  · simp [loadExpectationSuite, h0]
  · simp [loadExpectationSuite, hc, hyml]
